import Mathlib

/-!
Verification of the training-backend core (guardrails, intent parsing,
employee status derivation, global summary, query orchestration).

Strings are modelled as `List Char` at the ASCII level: Python `str.lower`
is `Char.toLower` per character, Python's `in` is substring containment,
and the regular expressions used by the code are hand-compiled into
executable matchers over character lists, mirroring `re.search` semantics
(`\b` word boundaries, `.` not matching a newline, greedy/backtracking
repetition over disjoint character classes).
-/

set_option maxRecDepth 4000

abbrev Str := List Char

/-- Apostrophe character (written via its code point). -/
def apos : Char := Char.ofNat 39

/-- Whitespace characters of Python `str.strip` / `str.split` / regex class
backslash-s, at the ASCII level. -/
def isPySpace (c : Char) : Bool :=
  c == ' ' || c == '\t' || c == '\n' || c == '\r' || c == '\x0b' || c == '\x0c'

/-- Word characters of the regex class backslash-w, at the ASCII level. -/
def isWordChar (c : Char) : Bool :=
  c.isAlphanum || c == '_'

/-- Python `str.lower` (ASCII). -/
def lowerStr (s : Str) : Str := s.map Char.toLower

/-- Python substring test: `needle in hay`. -/
def containsSub (needle : Str) : Str → Bool
  | [] => needle.isEmpty
  | c :: t => needle.isPrefixOf (c :: t) || containsSub needle t

/-- Python `str.lstrip`. -/
def pyStripLeft (s : Str) : Str := s.dropWhile isPySpace

/-- Python `str.rstrip`. -/
def pyStripRight (s : Str) : Str := (pyStripLeft s.reverse).reverse

/-- Python `str.strip`. -/
def pyStrip (s : Str) : Str := pyStripRight (pyStripLeft s)

/-- Helper for `pyTokenCount`: `inWord` records whether the previous
character was part of a token. -/
def pyTokenAux (inWord : Bool) : Str → Nat
  | [] => 0
  | c :: rest =>
      if isPySpace c then pyTokenAux false rest
      else if inWord then pyTokenAux true rest
      else 1 + pyTokenAux true rest

/-- Number of whitespace-separated tokens: `len(s.split())` in Python. -/
def pyTokenCount (s : Str) : Nat := pyTokenAux false s

/-- Whether an optional character is a word character (start/end of string
counts as a non-word character for word boundaries). -/
def optIsWord : Option Char → Bool
  | none => false
  | some c => isWordChar c

/-- Regex word boundary between two adjacent (optional) characters. -/
def isBoundary (a b : Option Char) : Bool := optIsWord a != optIsWord b

/-- Match of the regex fragment backslash-b w backslash-b at the head of
`s`, where `prev` is the character immediately before `s`. -/
def wordHere (prev : Option Char) (w s : Str) : Bool :=
  !w.isEmpty && w.isPrefixOf s && isBoundary prev w.head? &&
    isBoundary w.getLast? (s.drop w.length).head?

namespace Guardrails

/-- ALLOWED_TOPICS list from `guardrails.py`. -/
def ALLOWED_TOPICS : List Str :=
  ["training".toList, "video".toList, "course".toList, "completed".toList,
   "finished".toList, "status".toList, "progress".toList, "cybersecurity".toList,
   "security".toList, "phishing".toList, "password".toList,
   "data protection".toList, "incident".toList, "response".toList,
   "employee".toList, "learning".toList, "certification".toList,
   "module".toList, "lesson".toList, "duration".toList, "time".toList,
   "hours".toList, "minutes".toList, "started".toList, "completion".toList,
   "percentage".toList, "ciso".toList, "department".toList]

/-- FORBIDDEN_KEYWORDS list from `guardrails.py`. -/
def FORBIDDEN_KEYWORDS : List Str :=
  ["update".toList, "delete".toList, "insert".toList, "drop".toList,
   "alter".toList, "truncate".toList, "create".toList, "modify".toList,
   "change".toList, "set".toList, "exec".toList, "execute".toList,
   "system".toList, "shell".toList, "cmd".toList, "bash".toList,
   "powershell".toList, "eval".toList, "compile".toList,
   "password=".toList, "credential".toList, "api_key".toList,
   "secret".toList, "token".toList,
   "ignore previous".toList, "ignore instructions".toList,
   "ignore prompt".toList, "new instructions".toList,
   "system prompt".toList, "override".toList]

/-- Scan for a whole-word occurrence of one of `ws` reachable through a
dot-star gap (which cannot cross a newline). -/
def scanWordNoNL (ws : List Str) : Option Char → Str → Bool
  | _, [] => false
  | prev, c :: rest =>
      ws.any (fun w => wordHere prev w (c :: rest)) ||
      (!(c == '\n') && scanWordNoNL ws (some c) rest)

def sqlPat1Words1 : List Str :=
  ["union".toList, "select".toList, "from".toList, "where".toList]

def sqlPat1Words2 : List Str :=
  ["select".toList, "from".toList, "where".toList]

/-- SQL_INJECTION_PATTERNS entry 1: word of {union,select,from,where},
a dot-star gap, then word of {select,from,where}. -/
def sqlPat1 : Option Char → Str → Bool
  | _, [] => false
  | prev, c :: rest =>
      sqlPat1Words1.any (fun w =>
        wordHere prev w (c :: rest) &&
          scanWordNoNL sqlPat1Words2 w.getLast? ((c :: rest).drop w.length)) ||
      sqlPat1 (some c) rest

/-- SQL_INJECTION_PATTERNS entry 2: a semicolon or SQL comment marker. -/
def sqlPat2 (s : Str) : Bool :=
  containsSub (";".toList) s || containsSub ("--".toList) s ||
  containsSub ("/*".toList) s || containsSub ("*/".toList) s

/-- Scan for a quote character reachable through a dot-star gap. -/
def scanQuote : Str → Bool
  | [] => false
  | c :: rest => c == apos || c == '"' || (!(c == '\n') && scanQuote rest)

/-- Scan for a comparison character followed (through a dot-star gap) by a
quote character. -/
def scanCmpQuote : Str → Bool
  | [] => false
  | c :: rest =>
      ((c == '=' || c == '<' || c == '>') && scanQuote rest) ||
      (!(c == '\n') && scanCmpQuote rest)

/-- SQL_INJECTION_PATTERNS entry 3: word `or`/`and`, a gap, a character of
`[=<>]`, a gap, then a quote. -/
def sqlPat3 : Option Char → Str → Bool
  | _, [] => false
  | prev, c :: rest =>
      (["or".toList, "and".toList].any (fun w =>
        wordHere prev w (c :: rest) && scanCmpQuote ((c :: rest).drop w.length))) ||
      sqlPat3 (some c) rest

/-- One-or-more repetition of characters satisfying `p`, then a continuation
(with full backtracking, matching regex plus semantics). -/
def plusThen (p : Char → Bool) (k : Str → Bool) : Str → Bool
  | [] => false
  | c :: rest => p c && (k rest || plusThen p k rest)

/-- Scan every position for the literal `a` followed by continuation `k`. -/
def scanLitThen (a : Str) (k : Str → Bool) : Str → Bool
  | [] => false
  | c :: rest =>
      (a.isPrefixOf (c :: rest) && k ((c :: rest).drop a.length)) ||
      scanLitThen a k rest

/-- SQL_INJECTION_PATTERNS entry 4: `drop` whitespace `table`. -/
def sqlPat4 (s : Str) : Bool :=
  scanLitThen ("drop".toList)
    (plusThen isPySpace (fun t => ("table".toList).isPrefixOf t)) s

/-- SQL_INJECTION_PATTERNS entry 5: `delete` whitespace `from`. -/
def sqlPat5 (s : Str) : Bool :=
  scanLitThen ("delete".toList)
    (plusThen isPySpace (fun t => ("from".toList).isPrefixOf t)) s

/-- SQL_INJECTION_PATTERNS entry 6: `update` whitespace word whitespace
`set`. -/
def sqlPat6 (s : Str) : Bool :=
  scanLitThen ("update".toList)
    (plusThen isPySpace (plusThen isWordChar (plusThen isPySpace
      (fun t => ("set".toList).isPrefixOf t)))) s

/-- Disjunction of the six SQL-injection patterns over the lowercased
query (the code lowercases first, making IGNORECASE redundant at ASCII). -/
def sqlInjectionHit (ql : Str) : Bool :=
  sqlPat1 none ql || sqlPat2 ql || sqlPat3 none ql ||
  sqlPat4 ql || sqlPat5 ql || sqlPat6 ql

/-- Guardrails.check_sql_injection from `guardrails.py`. -/
def check_sql_injection (query : Str) : Bool × Str :=
  if sqlInjectionHit (lowerStr query) then
    (false, "Invalid query format detected. Please use natural language questions.".toList)
  else (true, "".toList)

/-- Guardrails.check_forbidden_keywords from `guardrails.py`. -/
def check_forbidden_keywords (query : Str) : Bool × Str :=
  if FORBIDDEN_KEYWORDS.any (fun kw => containsSub kw (lowerStr query)) then
    (false, "This query contains forbidden operations. I can only provide read-only information about training status.".toList)
  else (true, "".toList)

/-- Guardrails.is_training_related from `guardrails.py`. -/
def is_training_related (query : Str) : Bool × Str :=
  let hasAllowed := ALLOWED_TOPICS.any (fun kw => containsSub kw (lowerStr query))
  if !hasAllowed && pyTokenCount query > 3 then
    (false, "This query appears to be unrelated to cybersecurity training. Please ask about training videos, completion status, or employee progress.".toList)
  else (true, "".toList)

/-- Guardrails.validate_query from `guardrails.py`: blank check, length
check, SQL-injection check, forbidden-keyword check, topic check, in that
order, short-circuiting on the first failure. -/
def validate_query (query : Str) : Bool × Str :=
  if query.isEmpty || (pyStrip query).isEmpty then
    (false, "Please provide a query.".toList)
  else if query.length > 1000 then
    (false, "Query is too long. Please keep questions concise.".toList)
  else if !(check_sql_injection query).1 then
    (false, (check_sql_injection query).2)
  else if !(check_forbidden_keywords query).1 then
    (false, (check_forbidden_keywords query).2)
  else if !(is_training_related query).1 then
    (false, (is_training_related query).2)
  else (true, "".toList)

/-- Case-insensitive literal prefix test (pattern given lowercase). -/
def ciStarts (pat s : Str) : Bool := lowerStr (s.take pat.length) == pat

/-- Find the first case-insensitive occurrence of the (nonempty) closing
tag and return the remainder after it, together with the fact that the
remainder is shorter than the scanned text (used for termination). -/
def findClose (closeT : Str) : (s : Str) → Option {rem : Str // rem.length < s.length}
  | [] => none
  | c :: rest =>
      if ciStarts closeT (c :: rest) then
        some ⟨rest.drop (closeT.length - 1), by
          simp only [List.length_drop, List.length_cons]; omega⟩
      else
        match findClose closeT rest with
        | some ⟨rem, h⟩ => some ⟨rem, by simp only [List.length_cons]; omega⟩
        | none => none

/-- Fuel-indexed worker for `subTag`: every step strictly shortens the
remaining text (the remainder after a removed span is shorter by the
`findClose` bound), so fuel `s.length + 1` always suffices and the `0`
branch is never reached. -/
def subTagF (openT closeT : Str) : Nat → Str → Str
  | 0, s => s
  | _ + 1, [] => []
  | fe + 1, c :: rest =>
      if ciStarts openT (c :: rest) then
        match findClose closeT ((c :: rest).drop openT.length) with
        | some ⟨rem, _⟩ => subTagF openT closeT fe rem
        | none => c :: subTagF openT closeT fe rest
      else c :: subTagF openT closeT fe rest

/-- Model of one `re.sub(open .*? close, "", s, IGNORECASE|DOTALL)` pass:
scan left to right; on a case-insensitive occurrence of the opening tag,
drop everything up to and including the earliest closing tag and resume
after it; if no closing tag follows, advance one character. -/
def subTag (openT closeT : Str) (s : Str) : Str :=
  subTagF openT closeT (s.length + 1) s

/-- Whether the tagged-span regex has any match in `s` (used to state when
a `subTag` pass is the identity). -/
def hasTag (openT closeT : Str) : Str → Bool
  | [] => false
  | c :: rest =>
      (ciStarts openT (c :: rest) &&
        (findClose closeT ((c :: rest).drop openT.length)).isSome) ||
      hasTag openT closeT rest

/-- Guardrails.sanitize_response from `guardrails.py`: remove
`[SYSTEM]...[/SYSTEM]` spans, then `<system>...</system>` spans, then
triple-backtick `sql` fenced blocks, then strip surrounding whitespace. -/
def sanitize_response (response : Str) : Str :=
  pyStrip (subTag ("```sql".toList) ("```".toList)
    (subTag ("<system>".toList) ("</system>".toList)
      (subTag ("[system]".toList) ("[/system]".toList) response)))

end Guardrails

/-- Training status enumeration (string values NOT_STARTED, IN_PROGRESS,
FINISHED in the Python code). -/
inductive TrainingStatus where
  | NOT_STARTED
  | IN_PROGRESS
  | FINISHED
deriving DecidableEq

namespace IntentParser

/-- Intent enumeration from `intent_parser.py`, in declaration order. -/
inductive Intent where
  | CHECK_COMPLETION
  | LIST_MISSING_VIDEOS
  | LIST_COMPLETED_VIDEOS
  | VIDEO_DURATION
  | EMPLOYEE_STATUS
  | GLOBAL_SUMMARY
  | LIST_BY_STATUS
  | LIST_BY_VIDEO_COUNT
  | GENERAL_QUESTION
  | UNKNOWN
deriving DecidableEq

/-- An alternative inside a bounded group of an intent pattern: a literal
word/phrase, a literal with an optional final character (regex `xyz?`), or
a digit run (regex `\d+`). -/
inductive Alt where
  | lit (w : Str)
  | litOpt (w : Str) (c : Char)
  | digits

/-- A group `\b(a1|a2|...)\b` of an intent pattern. -/
abbrev RGroup := List Alt

/-- An intent pattern: groups separated by dot-star gaps. -/
abbrev RPattern := List RGroup

/-- Nonempty prefixes of the digit run at the head of `s` (the candidate
matches of `\d+` at this position). -/
def digitRunCands (s : Str) : List Str :=
  let run := s.takeWhile Char.isDigit
  (List.range run.length).map (fun k => run.take (k + 1))

/-- Candidate literal matches of an alternative at the head of `s`. -/
def altCands (s : Str) : Alt → List Str
  | Alt.lit w => [w]
  | Alt.litOpt w c => [w ++ [c], w]
  | Alt.digits => digitRunCands s

/-- State of the backtracking pattern matcher:
`groups gs prev s` — match the group sequence `gs` starting exactly at the
head of `s` (`prev` is the character just before `s`);
`alts g gs prev s` — try the remaining alternatives `g` of the current
group; `cands cs gs prev s` — try the remaining candidate literals `cs` of
an alternative; `gap gs prev s` — search for the next group through a
dot-star gap, which may consume any characters except a newline. -/
inductive MState where
  | groups (gs : RPattern) (prev : Option Char) (s : Str)
  | alts (g : RGroup) (gs : RPattern) (prev : Option Char) (s : Str)
  | cands (cs : List Str) (gs : RPattern) (prev : Option Char) (s : Str)
  | gap (gs : RPattern) (prev : Option Char) (s : Str)

/-- One backtracking matcher, structurally recursive on a fuel argument so
that it evaluates by kernel reduction; `patFuel` below always provides
enough fuel, so the `0` branch is never reached. -/
def mstep : Nat → MState → Bool
  | 0, _ => false
  | fe + 1, st =>
    match st with
    | .groups [] _ _ => true
    | .groups (g :: gs) prev s => mstep fe (.alts g gs prev s)
    | .alts [] _ _ _ => false
    | .alts (alt :: as) gs prev s =>
        mstep fe (.cands (altCands s alt) gs prev s) || mstep fe (.alts as gs prev s)
    | .cands [] _ _ _ => false
    | .cands (w :: cs) gs prev s =>
        (wordHere prev w s && mstep fe (.gap gs w.getLast? (s.drop w.length))) ||
        mstep fe (.cands cs gs prev s)
    | .gap [] _ _ => true
    | .gap (_ :: _) _ [] => false
    | .gap (g :: gs) prev (c :: cs) =>
        mstep fe (.groups (g :: gs) prev (c :: cs)) ||
        (!(c == '\n') && mstep fe (.gap (g :: gs) (some c) cs))

/-- Fuel bound dominating the depth of any matcher path: for each group,
one `groups` step, at most `|g|` `alts` steps, at most `s.length + 2`
`cands` steps, and at most `s.length + 1` `gap` steps. -/
def patFuel (gs : RPattern) (s : Str) : Nat :=
  (gs.map List.length).sum + gs.length * (2 * s.length + 4) + 4

/-- Match the group sequence starting exactly at the head of `s`. -/
def matchGroupsAt (gs : RPattern) (prev : Option Char) (s : Str) : Bool :=
  mstep (patFuel gs s) (MState.groups gs prev s)

/-- Scan every start position of `s` for a match of the pattern
(`re.search` semantics). -/
def reSearchAux (gs : RPattern) : Option Char → Str → Bool
  | prev, [] => matchGroupsAt gs prev []
  | prev, c :: cs => matchGroupsAt gs prev (c :: cs) || reSearchAux gs (some c) cs

/-- Whether `re.search(pattern, s)` finds a match. -/
def reSearch (gs : RPattern) (s : Str) : Bool := reSearchAux gs none s

/-- Literal alternative. -/
def al (s : String) : Alt := Alt.lit s.toList

/-- Literal alternative with optional final character. -/
def alOpt (s : String) (c : Char) : Alt := Alt.litOpt s.toList c

/-- INTENT_PATTERNS from `intent_parser.py`, in declaration (dict
insertion) order; each regex is transcribed group by group. -/
def INTENT_PATTERNS : List (Intent × List RPattern) :=
  [(Intent.CHECK_COMPLETION,
    [[[al ("did"), al ("have"), al ("has"), al ("completed"), al ("finished"),
       al ("done")],
      [al ("training"), alOpt ("video") 's', alOpt ("course") 's']],
     [[al ("training"), alOpt ("video") 's', alOpt ("course") 's'],
      [alOpt ("complete") 'd', al ("finished"), al ("done")]],
     [[al ("finished"), al ("completed")],
      [al ("all"), al ("everything")]]]),
   (Intent.LIST_MISSING_VIDEOS,
    [[[al ("what"), al ("which"), al ("list")],
      [al ("missing"), alOpt ("not complete") 'd', al ("remaining"), al ("left")],
      [alOpt ("video") 's']],
     [[alOpt ("video") 's'],
      [al ("missing"), alOpt ("not complete") 'd', al ("remaining"), al ("left")]],
     [[al ("haven\x27t"), al ("have not"), al ("didn\x27t"), al ("did not")],
      [al ("complete"), al ("finish"), al ("watch")]],
     [[al ("need to"), al ("have to"), al ("must")],
      [al ("complete"), al ("finish"), al ("watch")]]]),
   (Intent.LIST_COMPLETED_VIDEOS,
    [[[al ("what"), al ("which"), al ("list")],
      [alOpt ("complete") 'd', al ("finished"), al ("done"), al ("watched")],
      [alOpt ("video") 's']],
     [[alOpt ("video") 's'],
      [alOpt ("complete") 'd', al ("finished"), al ("done"), al ("watched")]],
     [[al ("show"), al ("tell"), al ("give")],
      [alOpt ("complete") 'd', al ("finished")]]]),
   (Intent.VIDEO_DURATION,
    [[[al ("how long"), al ("duration"), al ("time"), al ("minutes"), al ("hours")],
      [al ("video"), al ("spent"), al ("took")]],
     [[al ("video")],
      [al ("duration"), al ("time"), al ("long")]],
     [[al ("spent")],
      [al ("video"), al ("training")]]]),
   (Intent.EMPLOYEE_STATUS,
    [[[al ("status"), al ("progress"), al ("summary")]],
     [[al ("what is"), al ("show"), al ("give"), al ("tell")],
      [al ("my"), al ("their")],
      [al ("status"), al ("progress")]],
     [[al ("completion"), al ("percentage"), al ("%")]]]),
   (Intent.GLOBAL_SUMMARY,
    [[[al ("all employees"), al ("everyone"), al ("global"), al ("overall"),
       al ("company"), al ("organization")]],
     [[al ("average"), al ("mean"), al ("statistics"), al ("stats"), al ("summary")],
      [al ("all"), al ("everyone")]],
     [[al ("fastest"), al ("slowest"), al ("longest"), al ("shortest")],
      [al ("employee")]]]),
   (Intent.LIST_BY_STATUS,
    [[[al ("list"), al ("show"), al ("who")],
      [al ("not started"), al ("in progress"), al ("finished"), al ("completed")]],
     [[alOpt ("employee") 's'],
      [al ("not started"), al ("in progress"), al ("finished"), al ("completed")]]]),
   (Intent.LIST_BY_VIDEO_COUNT,
    [[[al ("how many"), al ("who"), al ("list")],
      [alOpt ("complete") 'd', al ("finished"), al ("watched")],
      [Alt.digits, al ("two"), al ("three"), al ("four")],
      [al ("or more"), al ("or less"), alOpt ("video") 's']],
     [[alOpt ("employee") 's', al ("people"), al ("users")],
      [Alt.digits, al ("two"), al ("three"), al ("four")],
      [al ("or more"), al ("or less")],
      [alOpt ("video") 's']]])]

/-- Scan the ordered intent/pattern pairs; first pattern that matches wins. -/
def classifyScan : List (Intent × List RPattern) → Str → Intent
  | [], _ => Intent.GENERAL_QUESTION
  | (i, pats) :: rest, ql =>
      if pats.any (fun p => reSearch p ql) then i else classifyScan rest ql

/-- IntentParser.classify_intent from `intent_parser.py`. -/
def classify_intent (query : Str) : Intent :=
  classifyScan INTENT_PATTERNS (lowerStr query)

/-- Integer value of the digit run at the head of `s` (the `int(...)` of
the regex group `\d+`). -/
def digitsVal (s : Str) : Nat :=
  (s.takeWhile Char.isDigit).foldl (fun a c => a * 10 + (c.toNat - 48)) 0

/-- Match `(\d+)` at the head of `s` and return its value. -/
def digitsHere : Str → Option Nat
  | [] => none
  | c :: rest => if c.isDigit then some (digitsVal (c :: rest)) else none

/-- Match `\s+` (one or more whitespace characters) then the continuation,
preferring longer whitespace runs (greedy). -/
def wsPlusThen (k : Str → Option Nat) : Str → Option Nat
  | [] => none
  | c :: rest =>
      if isPySpace c then
        match wsPlusThen k rest with
        | some n => some n
        | none => k rest
      else none

/-- Match `a\s+(\d+)` at the head of `s`. -/
def matchWordNum (a : Str) (s : Str) : Option Nat :=
  if a.isPrefixOf s then wsPlusThen digitsHere (s.drop a.length) else none

/-- Match `a\s+b\s+(\d+)` at the head of `s`. -/
def matchWord2Num (a b : Str) (s : Str) : Option Nat :=
  if a.isPrefixOf s then wsPlusThen (fun t => matchWordNum b t) (s.drop a.length)
  else none

/-- Leftmost match of a positional matcher (`re.search` semantics). -/
def searchOpt (f : Str → Option Nat) : Str → Option Nat
  | [] => f []
  | c :: rest =>
      match f (c :: rest) with
      | some n => some n
      | none => searchOpt f rest

/-- Leftmost match of `#(\d+)`. -/
def searchHashNum : Str → Option Nat
  | [] => none
  | c :: rest =>
      if c == '#' then
        match digitsHere rest with
        | some n => some n
        | none => searchHashNum rest
      else searchHashNum rest

/-- Walk the per-pattern leftmost matches in order; return the first one
whose value lies in 1..5, skipping patterns without a match and patterns
whose leftmost match is out of range (as the code's loop does). -/
def pickFirstInRange : List (Option Nat) → Option Nat
  | [] => none
  | none :: rest => pickFirstInRange rest
  | some n :: rest =>
      if 1 ≤ n && n ≤ 5 then some n else pickFirstInRange rest

/-- IntentParser.extract_video_number from `intent_parser.py`: patterns
`video N`, `video number N`, `module N`, `lesson N`, `#N` in order, value
accepted when 1 <= N <= 5. -/
def extract_video_number (query : Str) : Option Nat :=
  let ql := lowerStr query
  pickFirstInRange
    [searchOpt (matchWordNum ("video".toList)) ql,
     searchOpt (matchWord2Num ("video".toList) ("number".toList)) ql,
     searchOpt (matchWordNum ("module".toList)) ql,
     searchOpt (matchWordNum ("lesson".toList)) ql,
     searchHashNum ql]

/-- IntentParser.extract_status from `intent_parser.py`: NOT_STARTED cues
first, then IN_PROGRESS cues, then FINISHED cues. -/
def extract_status (query : Str) : Option TrainingStatus :=
  let ql := lowerStr query
  if containsSub ("not started".toList) ql ||
     containsSub ("haven\x27t started".toList) ql then
    some TrainingStatus.NOT_STARTED
  else if containsSub ("in progress".toList) ql ||
          containsSub ("ongoing".toList) ql ||
          containsSub ("started".toList) ql then
    some TrainingStatus.IN_PROGRESS
  else if containsSub ("finished".toList) ql ||
          containsSub ("completed".toList) ql ||
          containsSub ("done".toList) ql then
    some TrainingStatus.FINISHED
  else none

/-- Subject marker returned by `extract_employee_mention` ("self"/"other"
strings in the Python code). -/
inductive Mention where
  | self
  | other
deriving DecidableEq

/-- IntentParser.extract_employee_mention from `intent_parser.py`:
substring cues for "self" checked before substring cues for "other",
defaulting to "self". -/
def extract_employee_mention (query : Str) : Mention :=
  let ql := lowerStr query
  if ["my".toList, "i".toList, "me".toList, "myself".toList].any
      (fun w => containsSub w ql) then
    Mention.self
  else if ["his".toList, "her".toList, "their".toList, "employee".toList].any
      (fun w => containsSub w ql) then
    Mention.other
  else Mention.self

/-- CISO keyword list from `is_ciso_query`. -/
def CISO_KEYWORDS : List Str :=
  ["all employees".toList, "everyone".toList, "global".toList,
   "overall".toList, "company".toList, "organization".toList,
   "statistics".toList, "report".toList, "summary of all".toList,
   "fastest".toList, "slowest".toList, "average".toList,
   "list employees".toList]

/-- IntentParser.is_ciso_query from `intent_parser.py`. -/
def is_ciso_query (query : Str) : Bool :=
  CISO_KEYWORDS.any (fun kw => containsSub kw (lowerStr query))

end IntentParser

/-- Python `round(x, 2)`. Python uses banker's rounding on floats; this
model uses half-up rounding on exact rationals, which agrees with it at
every non-tie point, and no property proved below depends on tie
behaviour. -/
def round2 (x : ℚ) : ℚ := (round (x * 100) : ℤ) / 100

/-- Employee record from `models/employee.py`: identity and name columns,
plus a nullable start and finish timestamp for each of the 4 videos
(timestamps modelled as rational seconds). -/
structure Employee where
  EMPLOYEE_ID : Str
  EMPLOYEE_NAME : Str
  EMPLOYEE_LAST_NAME : Str
  EMPLOYEE_DIVISION : Str
  START_FIRST_VIDEO_DATE : Option ℚ
  FINISH_FIRST_VIDEO_DATE : Option ℚ
  START_SECOND_VIDEO_DATE : Option ℚ
  FINISH_SECOND_VIDEO_DATE : Option ℚ
  START_THIRD_VIDEO_DATE : Option ℚ
  FINISH_THIRD_VIDEO_DATE : Option ℚ
  START_FOURTH_VIDEO_DATE : Option ℚ
  FINISH_FOURTH_VIDEO_DATE : Option ℚ
deriving DecidableEq

namespace Employee

/-- Employee.full_name hybrid property. -/
def full_name (e : Employee) : Str :=
  e.EMPLOYEE_NAME ++ " ".toList ++ e.EMPLOYEE_LAST_NAME

/-- The `video_map` lookup for start dates (`dict.get` returns None for a
key outside 1..4). -/
def startMap (e : Employee) : Nat → Option ℚ
  | 1 => e.START_FIRST_VIDEO_DATE
  | 2 => e.START_SECOND_VIDEO_DATE
  | 3 => e.START_THIRD_VIDEO_DATE
  | 4 => e.START_FOURTH_VIDEO_DATE
  | _ => none

/-- The `video_map` lookup for finish dates. -/
def finishMap (e : Employee) : Nat → Option ℚ
  | 1 => e.FINISH_FIRST_VIDEO_DATE
  | 2 => e.FINISH_SECOND_VIDEO_DATE
  | 3 => e.FINISH_THIRD_VIDEO_DATE
  | 4 => e.FINISH_FOURTH_VIDEO_DATE
  | _ => none

/-- Employee.get_video_completed: finish date present. -/
def get_video_completed (e : Employee) (n : Nat) : Bool :=
  (finishMap e n).isSome

/-- Employee.get_video_duration: minutes between start and finish, rounded
to 2 decimals, or 0.0 when either bound is missing. -/
def get_video_duration (e : Employee) (n : Nat) : ℚ :=
  match startMap e n, finishMap e n with
  | some s, some f => round2 ((f - s) / 60)
  | _, _ => 0

/-- Employee.get_completed_videos over `range(1, 5)`. -/
def get_completed_videos (e : Employee) : List Nat :=
  [1, 2, 3, 4].filter (fun i => get_video_completed e i)

/-- Employee.get_missing_videos over `range(1, 5)`. -/
def get_missing_videos (e : Employee) : List Nat :=
  [1, 2, 3, 4].filter (fun i => !get_video_completed e i)

/-- Employee.get_training_status. -/
def get_training_status (e : Employee) : TrainingStatus :=
  let completed := get_completed_videos e
  if completed.length = 0 then TrainingStatus.NOT_STARTED
  else if completed.length = 4 then TrainingStatus.FINISHED
  else TrainingStatus.IN_PROGRESS

/-- Employee.completion_percentage. -/
def completion_percentage (e : Employee) : ℚ :=
  round2 (((get_completed_videos e).length : ℚ) / 4 * 100)

/-- Employee.total_time: sum of the four video durations. -/
def total_time (e : Employee) : ℚ :=
  ([1, 2, 3, 4].map (fun i => get_video_duration e i)).sum

end Employee

namespace TrainingService

/-- The `fastest_employee` / `slowest_employee` sub-dictionaries of the
global summary. -/
structure EmployeeRef where
  id : Str
  name : Str
  time_minutes : ℚ
deriving DecidableEq

/-- Return value of TrainingService.get_global_summary. -/
structure GlobalSummary where
  total_employees : Nat
  finished_employees_count : Nat
  not_started_count : Nat
  in_progress_count : Nat
  max_time_minutes : ℚ
  min_time_minutes : ℚ
  average_time_minutes : ℚ
  fastest_employee : Option EmployeeRef
  slowest_employee : Option EmployeeRef
deriving DecidableEq

/-- Python `max` over a list, seeded with an initial value (replaces only
on strictly greater, keeping the first maximal element). -/
def foldMax (a : ℚ) : List ℚ → ℚ
  | [] => a
  | x :: r => foldMax (if a < x then x else a) r

/-- Python `min` over a list, seeded with an initial value. -/
def foldMin (a : ℚ) : List ℚ → ℚ
  | [] => a
  | x :: r => foldMin (if x < a then x else a) r

/-- Python `min(employees, key=total_time)`: first employee with minimal
total time. -/
def minByTime : Employee → List Employee → Employee
  | best, [] => best
  | best, x :: r =>
      if x.total_time < best.total_time then minByTime x r else minByTime best r

/-- Python `max(employees, key=total_time)`: first employee with maximal
total time. -/
def maxByTime : Employee → List Employee → Employee
  | best, [] => best
  | best, x :: r =>
      if best.total_time < x.total_time then maxByTime x r else maxByTime best r

/-- TrainingService.get_global_summary from `training_service.py`: early
return for an empty store; early return when no employee has status
FINISHED; otherwise min/max/average of the finished employees' total
times, with the average division only in this last branch. -/
def get_global_summary (emps : List Employee) : GlobalSummary :=
  if emps.isEmpty then
    ⟨0, 0, 0, 0, 0, 0, 0, none, none⟩
  else
    let finished := emps.filter (fun e => e.get_training_status == TrainingStatus.FINISHED)
    let not_started := emps.filter (fun e => e.get_training_status == TrainingStatus.NOT_STARTED)
    let in_progress := emps.filter (fun e => e.get_training_status == TrainingStatus.IN_PROGRESS)
    match finished with
    | [] =>
        ⟨emps.length, 0, not_started.length, in_progress.length, 0, 0, 0, none, none⟩
    | f0 :: frest =>
        let times := (f0 :: frest).map Employee.total_time
        let fastest := minByTime f0 frest
        let slowest := maxByTime f0 frest
        ⟨emps.length, (f0 :: frest).length, not_started.length, in_progress.length,
         foldMax f0.total_time (frest.map Employee.total_time),
         foldMin f0.total_time (frest.map Employee.total_time),
         round2 (times.sum / (times.length : ℚ)),
         some ⟨fastest.EMPLOYEE_ID, fastest.full_name, fastest.total_time⟩,
         some ⟨slowest.EMPLOYEE_ID, slowest.full_name, slowest.total_time⟩⟩

end TrainingService

namespace TrainingAgent

/-- Pipeline stages of TrainingAgent.process_query, recorded in execution
order to express which stages a given exit path reaches. -/
inductive Step where
  | guardrail
  | authCheck
  | parseIntent
  | cisoCheck
  | dataFetch
  | llmCall
  | sanitizeResp
deriving DecidableEq

/-- External collaborators and session state of the agent: the session's
authentication and CISO flags (resolved by the auth service), the
database-backed context fetch, and the LLM/renderer call, the latter two
abstracted as opaque functions (they are external to the validation and
authentication logic under verification). -/
structure AgentEnv where
  authenticated : Bool
  isCiso : Bool
  getContextData : IntentParser.Intent → Str → Str
  llm : Str → Str → Str

/-- Result dictionary of TrainingAgent.process_query (the intent key is
present only on the success path). -/
structure AgentResult where
  success : Bool
  response : Str
  requires_auth : Bool
  intent : Option IntentParser.Intent

/-- TrainingAgent.process_query from `training_agent.py`: guardrail
validation, then the authentication check, then intent parsing, the CISO
permission gate, context-data retrieval, the LLM call and response
sanitisation; each exit returns the stages executed so far. -/
def process_query (env : AgentEnv) (query : Str) : AgentResult × List Step :=
  let v := Guardrails.validate_query query
  if !v.1 then
    (⟨false, v.2, false, none⟩, [Step.guardrail])
  else if !env.authenticated then
    (⟨false, "Please authenticate with your employee ID and name first.".toList,
      true, none⟩,
     [Step.guardrail, Step.authCheck])
  else
    let intent := IntentParser.classify_intent query
    if IntentParser.is_ciso_query query && !env.isCiso then
      (⟨false, "You don\x27t have permission to access company-wide statistics. CISO access required.".toList,
        false, none⟩,
       [Step.guardrail, Step.authCheck, Step.parseIntent, Step.cisoCheck])
    else
      let resp := Guardrails.sanitize_response (env.llm query (env.getContextData intent query))
      (⟨true, resp, false, some intent⟩,
       [Step.guardrail, Step.authCheck, Step.parseIntent, Step.cisoCheck,
        Step.dataFetch, Step.llmCall, Step.sanitizeResp])

end TrainingAgent

/-- Whether none of the three sanitisation patterns has a match in `s`. -/
def noTagMatches (s : Str) : Bool :=
  !(Guardrails.hasTag ("[system]".toList) ("[/system]".toList) s) &&
  !(Guardrails.hasTag ("<system>".toList) ("</system>".toList) s) &&
  !(Guardrails.hasTag ("```sql".toList) ("```".toList) s)

/-- An unauthenticated, unprivileged session environment with inert
collaborators, used to instantiate the orchestration theorems. -/
def envUnauth : TrainingAgent.AgentEnv :=
  ⟨false, false, fun _ _ => [], fun _ _ => []⟩

/-- Employee with finish timestamps on videos 1 and 2 only. -/
def emp12 : Employee :=
  ⟨"000000002".toList, "Noa".toList, "Levi".toList, "IT".toList,
   some 0, some 600, some 1000, some 1900, none, none, none, none⟩

/-- Employee who has not finished any video. -/
def empNS : Employee :=
  ⟨"000000003".toList, "Ada".toList, "Stone".toList, "HR".toList,
   none, none, none, none, none, none, none, none⟩

/-- Employee with all four finish timestamps present. -/
def empFin : Employee :=
  ⟨"000000004".toList, "Eli".toList, "Vardi".toList, "IT".toList,
   some 0, some 600, some 700, some 1300, some 1400, some 2000,
   some 2100, some 2700⟩

/-! Helper lemmas. -/

theorem toLower_space {c : Char} (h : isPySpace c = true) : Char.toLower c = c := by
  simp only [isPySpace, Bool.or_eq_true, beq_iff_eq] at h
  rcases h with ((((h | h) | h) | h) | h) | h <;> subst h <;> decide

theorem containsSub_infix_iff {n h : Str} : containsSub n h = true ↔ n <:+: h := by
  induction h with
  | nil => simp [containsSub, List.isEmpty_iff, List.infix_nil]
  | cons c t ih =>
    simp [containsSub, ih, List.infix_cons_iff, List.isPrefixOf_iff_prefix]

theorem containsSub_trans {a b c : Str} (h1 : containsSub a b = true)
    (h2 : containsSub b c = true) : containsSub a c = true := by
  rw [containsSub_infix_iff] at *
  exact h1.trans h2

theorem containsSub_mem {n h : Str} (hsub : containsSub n h = true) :
    ∀ c ∈ n, c ∈ h := by
  intro c hc
  exact (containsSub_infix_iff.mp hsub).sublist.subset hc

theorem pyStrip_eq_nil_all_space {q : Str} (h : pyStrip q = []) :
    ∀ c ∈ q, isPySpace c = true := by
  unfold pyStrip pyStripRight pyStripLeft at h
  rw [List.reverse_eq_nil_iff, List.dropWhile_eq_nil_iff] at h
  have hdrop : ∀ c ∈ q.dropWhile isPySpace, isPySpace c = true := by
    intro c hc
    exact h c (List.mem_reverse.mpr hc)
  intro c hc
  rw [← List.takeWhile_append_dropWhile (p := isPySpace) (l := q),
    List.mem_append] at hc
  rcases hc with hc | hc
  · exact List.mem_takeWhile_imp hc
  · exact hdrop c hc

theorem forbidden_not_blank {kw q : Str} (hmem : kw ∈ Guardrails.FORBIDDEN_KEYWORDS)
    (hsub : containsSub kw (lowerStr q) = true) :
    (q.isEmpty || (pyStrip q).isEmpty) = false := by
  have hne : kw.isEmpty = false := by
    have hall : Guardrails.FORBIDDEN_KEYWORDS.all (fun k => !k.isEmpty) = true := by decide
    have := List.all_eq_true.mp hall kw hmem
    simpa using this
  have hnsp : kw.any (fun c => !isPySpace c) = true := by
    have hall : Guardrails.FORBIDDEN_KEYWORDS.all
        (fun k => k.any (fun c => !isPySpace c)) = true := by decide
    exact List.all_eq_true.mp hall kw hmem
  cases hq : (q.isEmpty || (pyStrip q).isEmpty) with
  | false => rfl
  | true =>
    exfalso
    rw [Bool.or_eq_true, List.isEmpty_iff, List.isEmpty_iff] at hq
    rcases hq with hq | hq
    · subst hq
      simp only [containsSub, lowerStr, List.map_nil] at hsub
      rw [hsub] at hne
      simp at hne
    · obtain ⟨c, hc, hcs⟩ := List.any_eq_true.mp hnsp
      have hcq : c ∈ lowerStr q := containsSub_mem hsub c hc
      obtain ⟨d, hd, hdc⟩ := List.mem_map.mp hcq
      have hds : isPySpace d = true := pyStrip_eq_nil_all_space hq d hd
      rw [toLower_space hds] at hdc
      subst hdc
      rw [hds] at hcs
      simp at hcs

theorem dropWhile_self {p : Char → Bool} (l : List Char) :
    (l.dropWhile p).dropWhile p = l.dropWhile p := by
  induction l with
  | nil => rfl
  | cons c t ih =>
    by_cases h : p c = true
    · simp [List.dropWhile_cons, h, ih]
    · simp [List.dropWhile_cons, h]

theorem stripLeft_of_stripRight {v : Str} (hv : pyStripLeft v = v) :
    pyStripLeft (pyStripRight v) = pyStripRight v := by
  have hpre : pyStripRight v <+: v := by
    have h0 : List.dropWhile isPySpace v.reverse <:+ v.reverse :=
      List.dropWhile_suffix _
    have h1 : (List.dropWhile isPySpace v.reverse).reverse <+: v.reverse.reverse :=
      List.reverse_prefix.mpr h0
    rw [List.reverse_reverse] at h1
    exact h1
  cases hw : pyStripRight v with
  | nil => rfl
  | cons c t =>
    rw [hw] at hpre
    obtain ⟨rest, hrest⟩ := hpre
    have hpc : isPySpace c = false := by
      by_contra hcon
      rw [Bool.not_eq_false] at hcon
      have hv2 : List.dropWhile isPySpace v = v := hv
      rw [← hrest, List.cons_append, List.dropWhile_cons, if_pos hcon] at hv2
      have hlen := congrArg List.length hv2
      have hle : (List.dropWhile isPySpace (t ++ rest)).length ≤ (t ++ rest).length :=
        (List.dropWhile_suffix _).sublist.length_le
      simp only [List.length_cons] at hlen
      omega
    unfold pyStripLeft
    rw [List.dropWhile_cons, if_neg (by simp [hpc])]

theorem stripRight_self {v : Str} : pyStripRight (pyStripRight v) = pyStripRight v := by
  unfold pyStripRight pyStripLeft
  rw [List.reverse_reverse, dropWhile_self]

theorem pyStrip_idem (s : Str) : pyStrip (pyStrip s) = pyStrip s := by
  unfold pyStrip
  have h1 : pyStripLeft (pyStripLeft s) = pyStripLeft s := dropWhile_self s
  rw [stripLeft_of_stripRight h1, stripRight_self]

theorem subTagF_no_match (o cl : Str) :
    ∀ fe s, Guardrails.hasTag o cl s = false → s.length < fe →
      Guardrails.subTagF o cl fe s = s := by
  intro fe
  induction fe with
  | zero => intro s _ h; omega
  | succ n ih =>
    intro s hnm hlen
    cases s with
    | nil => rfl
    | cons c rest =>
      unfold Guardrails.hasTag at hnm
      rw [Bool.or_eq_false_iff] at hnm
      obtain ⟨hhead, htail⟩ := hnm
      unfold Guardrails.subTagF
      have hrest : Guardrails.subTagF o cl n rest = rest := by
        apply ih rest htail
        simp only [List.length_cons] at hlen
        omega
      by_cases hci : Guardrails.ciStarts o (c :: rest) = true
      · rw [if_pos hci]
        rw [hci] at hhead
        simp only [Bool.true_and] at hhead
        cases hfc : Guardrails.findClose cl ((c :: rest).drop o.length) with
        | none => simp [hfc, hrest]
        | some r =>
          rw [hfc] at hhead
          simp at hhead
      · rw [if_neg hci, hrest]

theorem subTag_no_match {o cl s : Str} (h : Guardrails.hasTag o cl s = false) :
    Guardrails.subTag o cl s = s :=
  subTagF_no_match o cl (s.length + 1) s h (by omega)

theorem pickFirstInRange_range :
    ∀ l n, IntentParser.pickFirstInRange l = some n → 1 ≤ n ∧ n ≤ 5 := by
  intro l
  induction l with
  | nil => intro n h; simp [IntentParser.pickFirstInRange] at h
  | cons o rest ih =>
    intro n h
    cases o with
    | none => exact ih n h
    | some m =>
      unfold IntentParser.pickFirstInRange at h
      by_cases hm : (1 ≤ m && m ≤ 5) = true
      · rw [if_pos hm] at h
        rw [Bool.and_eq_true, decide_eq_true_eq, decide_eq_true_eq] at hm
        cases h
        exact hm
      · rw [if_neg hm] at h
        exact ih n h

/-! Claim theorems. -/

/-- C1: for every session environment and query, if guardrail validation
fails, process_query returns the rejection reason with success false and no
authentication check performed; otherwise, if the session is not fully
authenticated, it returns a requires_auth signal and never reaches intent
classification or data access. -/
theorem c1_guardrail_then_auth_gate (env : TrainingAgent.AgentEnv) (query : Str) :
    ((Guardrails.validate_query query).1 = false →
      (TrainingAgent.process_query env query).1.success = false ∧
      (TrainingAgent.process_query env query).1.response =
        (Guardrails.validate_query query).2 ∧
      (TrainingAgent.process_query env query).1.requires_auth = false ∧
      TrainingAgent.Step.authCheck ∉ (TrainingAgent.process_query env query).2) ∧
    ((Guardrails.validate_query query).1 = true → env.authenticated = false →
      (TrainingAgent.process_query env query).1.success = false ∧
      (TrainingAgent.process_query env query).1.requires_auth = true ∧
      TrainingAgent.Step.parseIntent ∉ (TrainingAgent.process_query env query).2 ∧
      TrainingAgent.Step.dataFetch ∉ (TrainingAgent.process_query env query).2) := by
  constructor
  · intro h
    simp [TrainingAgent.process_query, h]
  · intro h hauth
    simp [TrainingAgent.process_query, h, hauth]

/-- Witness for C1: a forbidden-keyword query is rejected with no auth
check, and an accepted query on an unauthenticated session signals
requires_auth without reaching intent classification or data access. -/
theorem c1_guardrail_then_auth_gate_witness :
    ((TrainingAgent.process_query envUnauth ("Update my training status".toList)).1.success = false ∧
     (TrainingAgent.process_query envUnauth ("Update my training status".toList)).1.response =
       (Guardrails.validate_query ("Update my training status".toList)).2 ∧
     (TrainingAgent.process_query envUnauth ("Update my training status".toList)).1.requires_auth = false ∧
     TrainingAgent.Step.authCheck ∉
       (TrainingAgent.process_query envUnauth ("Update my training status".toList)).2) ∧
    ((TrainingAgent.process_query envUnauth ("What is my training status?".toList)).1.success = false ∧
     (TrainingAgent.process_query envUnauth ("What is my training status?".toList)).1.requires_auth = true ∧
     TrainingAgent.Step.parseIntent ∉
       (TrainingAgent.process_query envUnauth ("What is my training status?".toList)).2 ∧
     TrainingAgent.Step.dataFetch ∉
       (TrainingAgent.process_query envUnauth ("What is my training status?".toList)).2) :=
  ⟨(c1_guardrail_then_auth_gate envUnauth _).1 (by decide),
   (c1_guardrail_then_auth_gate envUnauth _).2 (by decide) rfl⟩

/-- C2 counterexample: "delete from x" contains the forbidden keyword
"delete", yet the rejection message is the SQL-injection one and does not
contain "forbidden" (the SQL-injection check fires first), refuting the
claim's "regardless of the rest of the query's content". -/
theorem c2_forbidden_message_counterexample :
    ("delete".toList) ∈ Guardrails.FORBIDDEN_KEYWORDS ∧
    containsSub ("delete".toList) (lowerStr ("delete from x".toList)) = true ∧
    (Guardrails.validate_query ("delete from x".toList)).1 = false ∧
    containsSub ("forbidden".toList)
      (lowerStr (Guardrails.validate_query ("delete from x".toList)).2) = false :=
  ⟨by decide, by decide, by decide, by decide⟩

/-- C2 (amended): every query containing a forbidden keyword as a
case-insensitive substring is rejected; the rejection message contains
"forbidden" provided the query is within the length limit and matches no
SQL-injection pattern (those earlier checks otherwise supply their own
messages). -/
theorem c2_forbidden_keyword_rejection (query kw : Str)
    (hmem : kw ∈ Guardrails.FORBIDDEN_KEYWORDS)
    (hsub : containsSub kw (lowerStr query) = true) :
    (Guardrails.validate_query query).1 = false ∧
    (query.length ≤ 1000 →
      Guardrails.sqlInjectionHit (lowerStr query) = false →
      Guardrails.validate_query query =
        (false, "This query contains forbidden operations. I can only provide read-only information about training status.".toList) ∧
      containsSub ("forbidden".toList) (Guardrails.validate_query query).2 = true) := by
  have hany : (Guardrails.FORBIDDEN_KEYWORDS.any
      fun k => containsSub k (lowerStr query)) = true :=
    List.any_eq_true.mpr ⟨kw, hmem, hsub⟩
  have hforb : Guardrails.check_forbidden_keywords query =
      (false, "This query contains forbidden operations. I can only provide read-only information about training status.".toList) := by
    unfold Guardrails.check_forbidden_keywords
    rw [if_pos hany]
  constructor
  · unfold Guardrails.validate_query
    split
    · rfl
    · split
      · rfl
      · split
        · rfl
        · rw [hforb]
          simp
  · intro hlen hsql
    have hb := forbidden_not_blank hmem hsub
    have hsqlr : Guardrails.check_sql_injection query = (true, "".toList) := by
      unfold Guardrails.check_sql_injection
      rw [if_neg (by simp [hsql])]
    have hv : Guardrails.validate_query query =
        (false, "This query contains forbidden operations. I can only provide read-only information about training status.".toList) := by
      unfold Guardrails.validate_query
      rw [if_neg (by simp [hb]), if_neg (by omega), hsqlr]
      simp [hforb]
    exact ⟨hv, by rw [hv]; decide⟩

/-- Witness for C2 (amended) at "Update my training status". -/
theorem c2_forbidden_keyword_rejection_witness :
    (Guardrails.validate_query ("Update my training status".toList)).1 = false ∧
    Guardrails.validate_query ("Update my training status".toList) =
      (false, "This query contains forbidden operations. I can only provide read-only information about training status.".toList) := by
  have h := c2_forbidden_keyword_rejection ("Update my training status".toList)
    ("update".toList) (by decide) (by decide)
  exact ⟨h.1, (h.2 (by decide) (by decide)).1⟩

/-- C3: every non-blank query within the length limit that matches an
SQL-injection pattern is rejected with the "Invalid query format" message,
which contains "invalid query format" case-insensitively; the
forbidden-keyword message is never returned for such queries because the
SQL-injection check runs first. -/
theorem c3_sql_injection_precedence (query : Str)
    (hb : (query.isEmpty || (pyStrip query).isEmpty) = false)
    (hlen : query.length ≤ 1000)
    (hsql : Guardrails.sqlInjectionHit (lowerStr query) = true) :
    Guardrails.validate_query query =
      (false, "Invalid query format detected. Please use natural language questions.".toList) ∧
    containsSub ("invalid query format".toList)
      (lowerStr (Guardrails.validate_query query).2) = true ∧
    (Guardrails.validate_query query).2 ≠
      "This query contains forbidden operations. I can only provide read-only information about training status.".toList := by
  have hsqlr : Guardrails.check_sql_injection query =
      (false, "Invalid query format detected. Please use natural language questions.".toList) := by
    unfold Guardrails.check_sql_injection
    rw [if_pos hsql]
  have hv : Guardrails.validate_query query =
      (false, "Invalid query format detected. Please use natural language questions.".toList) := by
    unfold Guardrails.validate_query
    rw [if_neg (by simp [hb]), if_neg (by omega), hsqlr]
    simp
  refine ⟨hv, by rw [hv]; decide, by rw [hv]; decide⟩

/-- Witness for C3 at the spec's own example injection string. -/
theorem c3_sql_injection_precedence_witness :
    Guardrails.validate_query ("\x27; DROP TABLE employees; --".toList) =
      (false, "Invalid query format detected. Please use natural language questions.".toList) :=
  (c3_sql_injection_precedence ("\x27; DROP TABLE employees; --".toList)
    (by decide) (by decide) (by decide)).1

/-- C4 counterexample: removing one `[SYSTEM]...[/SYSTEM]` span can splice
the surrounding text into a new span, so a second sanitisation pass removes
more: sanitize is not idempotent. -/
theorem c4_sanitize_not_idempotent :
    Guardrails.sanitize_response
        (Guardrails.sanitize_response ("[SYS[SYSTEM]a[/SYSTEM]TEM] b [/SYSTEM]".toList)) ≠
      Guardrails.sanitize_response ("[SYS[SYSTEM]a[/SYSTEM]TEM] b [/SYSTEM]".toList) := by
  decide

/-- C4 (amended): sanitize_response is idempotent on every input whose
sanitised form contains no further occurrence of any of the three removal
patterns (removal can otherwise splice delimiters into a new match). -/
theorem c4_sanitize_conditional_idempotent (x : Str)
    (h : noTagMatches (Guardrails.sanitize_response x) = true) :
    Guardrails.sanitize_response (Guardrails.sanitize_response x) =
      Guardrails.sanitize_response x := by
  unfold noTagMatches at h
  rw [Bool.and_eq_true, Bool.and_eq_true] at h
  obtain ⟨⟨h1, h2⟩, h3⟩ := h
  rw [Bool.not_eq_true'] at h1 h2 h3
  set y := Guardrails.sanitize_response x with hy
  show pyStrip (Guardrails.subTag ("```sql".toList) ("```".toList)
      (Guardrails.subTag ("<system>".toList) ("</system>".toList)
        (Guardrails.subTag ("[system]".toList) ("[/system]".toList) y))) = y
  rw [subTag_no_match h1, subTag_no_match h2, subTag_no_match h3, hy]
  exact pyStrip_idem _

/-- Witness for C4 (amended) at a response whose sanitised form is free of
the removal patterns. -/
theorem c4_sanitize_conditional_idempotent_witness :
    Guardrails.sanitize_response
        (Guardrails.sanitize_response ("hello [SYSTEM] x [/SYSTEM] world".toList)) =
      Guardrails.sanitize_response ("hello [SYSTEM] x [/SYSTEM] world".toList) :=
  c4_sanitize_conditional_idempotent ("hello [SYSTEM] x [/SYSTEM] world".toList) (by decide)

/-- C5: evaluation of classify_intent at the three spec queries. The first
two agree with the claim; the third returns CHECK_COMPLETION, not
VIDEO_DURATION (the CHECK_COMPLETION pattern `did .. video` matches first),
contradicting the repo's own test suite; extract_video_number still
yields 3. -/
theorem c5_classification_results :
    IntentParser.classify_intent ("Did I complete my training?".toList) =
      IntentParser.Intent.CHECK_COMPLETION ∧
    IntentParser.classify_intent ("Which videos am I missing?".toList) =
      IntentParser.Intent.LIST_MISSING_VIDEOS ∧
    IntentParser.classify_intent ("How long did video 3 take me?".toList) =
      IntentParser.Intent.CHECK_COMPLETION ∧
    IntentParser.extract_video_number ("How long did video 3 take me?".toList) =
      some 3 :=
  ⟨by decide, by decide, by decide, by decide⟩

/-- C6 counterexample: a query containing both "started" and "finished" is
classified IN_PROGRESS, refuting the claim that the FINISHED check has the
highest priority. -/
theorem c6_priority_counterexample :
    containsSub ("finished".toList) (lowerStr ("started and finished".toList)) = true ∧
    IntentParser.extract_status ("started and finished".toList) =
      some TrainingStatus.IN_PROGRESS :=
  ⟨by decide, by decide⟩

/-- C6 (amended): extract_status checks NOT_STARTED cues first, then
IN_PROGRESS cues, then FINISHED cues: FINISHED is returned for a query with
a finished cue and no higher-priority cue, IN_PROGRESS wins over FINISHED
when both cue sets appear, and the spec's concrete example still yields
FINISHED. -/
theorem c6_status_priority_order (query : Str) :
    ((containsSub ("finished".toList) (lowerStr query) = true ∨
      containsSub ("completed".toList) (lowerStr query) = true ∨
      containsSub ("done".toList) (lowerStr query) = true) →
     containsSub ("not started".toList) (lowerStr query) = false →
     containsSub ("haven\x27t started".toList) (lowerStr query) = false →
     containsSub ("in progress".toList) (lowerStr query) = false →
     containsSub ("ongoing".toList) (lowerStr query) = false →
     containsSub ("started".toList) (lowerStr query) = false →
     IntentParser.extract_status query = some TrainingStatus.FINISHED) ∧
    ((containsSub ("in progress".toList) (lowerStr query) = true ∨
      containsSub ("ongoing".toList) (lowerStr query) = true ∨
      containsSub ("started".toList) (lowerStr query) = true) →
     containsSub ("not started".toList) (lowerStr query) = false →
     containsSub ("haven\x27t started".toList) (lowerStr query) = false →
     IntentParser.extract_status query = some TrainingStatus.IN_PROGRESS) ∧
    IntentParser.extract_status ("Show employees who have finished".toList) =
      some TrainingStatus.FINISHED := by
  refine ⟨?_, ?_, by decide⟩
  · intro hfin hns1 hns2 hip1 hip2 hip3
    have hfin' : (containsSub ("finished".toList) (lowerStr query) ||
        containsSub ("completed".toList) (lowerStr query) ||
        containsSub ("done".toList) (lowerStr query)) = true := by
      rcases hfin with h | h | h <;>
        simp only [h, Bool.true_or, Bool.or_true]
    unfold IntentParser.extract_status
    rw [if_neg (by simp only [hns1, hns2]; decide),
      if_neg (by simp only [hip1, hip2, hip3]; decide), if_pos hfin']
  · intro hip hns1 hns2
    have hip' : (containsSub ("in progress".toList) (lowerStr query) ||
        containsSub ("ongoing".toList) (lowerStr query) ||
        containsSub ("started".toList) (lowerStr query)) = true := by
      rcases hip with h | h | h <;>
        simp only [h, Bool.true_or, Bool.or_true]
    unfold IntentParser.extract_status
    rw [if_neg (by simp only [hns1, hns2]; decide), if_pos hip']

/-- Witness for C6 (amended) at "finished" and "ongoing". -/
theorem c6_status_priority_order_witness :
    IntentParser.extract_status ("finished".toList) = some TrainingStatus.FINISHED ∧
    IntentParser.extract_status ("ongoing".toList) = some TrainingStatus.IN_PROGRESS :=
  ⟨(c6_status_priority_order ("finished".toList)).1 (Or.inl (by decide))
      (by decide) (by decide) (by decide) (by decide) (by decide),
   (c6_status_priority_order ("ongoing".toList)).2.1 (Or.inr (Or.inl (by decide)))
      (by decide) (by decide)⟩

/-- C7 counterexample: the code accepts video numbers up to 5, so a query
whose only match is "video 5" yields 5, not null as the claim states. -/
theorem c7_video5_counterexample :
    IntentParser.extract_video_number ("video 5".toList) = some 5 := by
  decide

/-- C7 (amended): extract_video_number returns the first matching shape's
integer only when 1 <= N <= 5 (not 4), and returns none otherwise; in
particular "video 5" yields 5 and "video 6" yields none. -/
theorem c7_video_number_range :
    (∀ query n, IntentParser.extract_video_number query = some n →
      1 ≤ n ∧ n ≤ 5) ∧
    IntentParser.extract_video_number ("video 5".toList) = some 5 ∧
    IntentParser.extract_video_number ("video 6".toList) = none := by
  refine ⟨?_, by decide, by decide⟩
  intro query n h
  unfold IntentParser.extract_video_number at h
  exact pickFirstInRange_range _ n h

/-- Witness for C7 (amended) at "lesson 2". -/
theorem c7_video_number_range_witness : 1 ≤ 2 ∧ 2 ≤ 5 :=
  c7_video_number_range.1 ("lesson 2".toList) 2 (by decide)

/-- C8: a video is completed iff its finish timestamp is present,
independently of the start timestamps; the derived status is NOT_STARTED
iff 0 videos are completed, IN_PROGRESS iff 1..3 are, FINISHED iff all 4
are; the completion percentage is completed/4 x 100 (exactly 25 per
completed video, rounding being the identity there); and the record with
finish timestamps on videos 1 and 2 only has status IN_PROGRESS,
percentage 50, completed list [1, 2] and missing list [3, 4]. -/
theorem c8_status_derivation :
    (∀ e n, Employee.get_video_completed e n = true ↔ Employee.finishMap e n ≠ none) ∧
    (∀ e s1 s2 s3 s4 n, Employee.get_video_completed
        { e with START_FIRST_VIDEO_DATE := s1, START_SECOND_VIDEO_DATE := s2,
                 START_THIRD_VIDEO_DATE := s3, START_FOURTH_VIDEO_DATE := s4 } n =
      Employee.get_video_completed e n) ∧
    (∀ e, (Employee.get_training_status e = TrainingStatus.NOT_STARTED ↔
            (Employee.get_completed_videos e).length = 0) ∧
          (Employee.get_training_status e = TrainingStatus.IN_PROGRESS ↔
            (1 ≤ (Employee.get_completed_videos e).length ∧
             (Employee.get_completed_videos e).length ≤ 3)) ∧
          (Employee.get_training_status e = TrainingStatus.FINISHED ↔
            (Employee.get_completed_videos e).length = 4)) ∧
    (∀ e, Employee.completion_percentage e =
          ((Employee.get_completed_videos e).length : ℚ) * 25) ∧
    (Employee.get_training_status emp12 = TrainingStatus.IN_PROGRESS ∧
     Employee.completion_percentage emp12 = 50 ∧
     Employee.get_completed_videos emp12 = [1, 2] ∧
     Employee.get_missing_videos emp12 = [3, 4]) := by
  have hpct : ∀ e, Employee.completion_percentage e =
      ((Employee.get_completed_videos e).length : ℚ) * 25 := by
    intro e
    unfold Employee.completion_percentage round2
    have h1 : (((Employee.get_completed_videos e).length : ℚ) / 4 * 100) * 100 =
        ((2500 * (Employee.get_completed_videos e).length : ℕ) : ℚ) := by
      push_cast
      ring
    rw [h1, round_natCast]
    push_cast
    rw [div_eq_iff (by norm_num : (100 : ℚ) ≠ 0)]
    ring
  have hpct12 : Employee.completion_percentage emp12 = 50 := by
    have hcv : Employee.get_completed_videos emp12 = [1, 2] := by decide
    rw [hpct emp12, hcv]
    norm_num
  refine ⟨?_, ?_, ?_, hpct, by decide, hpct12, by decide, by decide⟩
  · intro e n
    simp [Employee.get_video_completed, Option.isSome_iff_ne_none]
  · intro e s1 s2 s3 s4 n
    rcases n with _ | _ | _ | _ | _ | n <;> rfl
  · intro e
    have hle : (Employee.get_completed_videos e).length ≤ 4 := by
      simpa [Employee.get_completed_videos] using
        List.length_filter_le (fun i => Employee.get_video_completed e i) [1, 2, 3, 4]
    simp only [Employee.get_training_status]
    generalize (Employee.get_completed_videos e).length = k at hle ⊢
    interval_cases k <;> refine ⟨by decide, by decide, by decide⟩

/-- C9 counterexample: with one not-started employee the store has no
FINISHED record, yet the summary's not_started_count is 1, not 0, refuting
"all counts ... equal to 0" for the no-finished case. -/
theorem c9_counts_counterexample :
    ([empNS].filter (fun e => e.get_training_status == TrainingStatus.FINISHED)) = [] ∧
    (TrainingService.get_global_summary [empNS]).not_started_count ≠ 0 :=
  ⟨by decide, by decide⟩

/-- C9 (amended): with zero records the summary is all-zero with null
fastest/slowest; with records but no FINISHED record the finished count and
all time statistics are 0 and fastest/slowest are null while the status
counts reflect the partition; and the average-time division is only reached
when the finished subset is non-empty (its length is then positive), so no
division by zero occurs. -/
theorem c9_global_summary_safety :
    (TrainingService.get_global_summary [] =
      ⟨0, 0, 0, 0, 0, 0, 0, none, none⟩) ∧
    (∀ emps : List Employee, emps ≠ [] →
      emps.filter (fun e => e.get_training_status == TrainingStatus.FINISHED) = [] →
      TrainingService.get_global_summary emps =
        ⟨emps.length, 0,
         (emps.filter (fun e => e.get_training_status == TrainingStatus.NOT_STARTED)).length,
         (emps.filter (fun e => e.get_training_status == TrainingStatus.IN_PROGRESS)).length,
         0, 0, 0, none, none⟩) ∧
    (∀ emps : List Employee,
      emps.filter (fun e => e.get_training_status == TrainingStatus.FINISHED) ≠ [] →
      0 < (emps.filter (fun e => e.get_training_status == TrainingStatus.FINISHED)).length ∧
      (TrainingService.get_global_summary emps).fastest_employee ≠ none ∧
      (TrainingService.get_global_summary emps).slowest_employee ≠ none) := by
  refine ⟨by decide, ?_, ?_⟩
  · intro emps hne hfin
    cases emps with
    | nil => exact absurd rfl hne
    | cons e0 erest =>
      simp only [TrainingService.get_global_summary]
      rw [if_neg (by simp), hfin]
  · intro emps hfne
    cases hf : emps.filter (fun e => e.get_training_status == TrainingStatus.FINISHED) with
    | nil => exact absurd hf hfne
    | cons f0 frest =>
      refine ⟨by simp [hf], ?_⟩
      have hne : emps ≠ [] := by
        intro h
        subst h
        simp at hf
      cases emps with
      | nil => exact absurd rfl hne
      | cons e0 erest =>
        simp only [TrainingService.get_global_summary]
        rw [if_neg (by simp), hf]
        simp

/-- Witness for C9 (amended): a single not-started employee yields the
no-finished summary, and a single finished employee makes the finished
subset non-empty. -/
theorem c9_global_summary_safety_witness :
    TrainingService.get_global_summary [empNS] =
      ⟨1, 0, 1, 0, 0, 0, 0, none, none⟩ ∧
    0 < ([empFin].filter
      (fun e => e.get_training_status == TrainingStatus.FINISHED)).length := by
  constructor
  · have h := c9_global_summary_safety.2.1 [empNS] (by decide) (by decide)
    rw [h]
    decide
  · exact (c9_global_summary_safety.2.2 [empFin] (by decide)).1

/-- C10: extract_employee_mention matches its cue words as raw substrings:
any query whose lowercase form contains "i", "my" or "me" yields "self";
and "other" is returned only when none of the self cues (including
"myself") occurs as a substring and the query contains "her" or "employee"
(the cues "his" and "their" contain "i" and so can never be the trigger). -/
theorem c10_employee_mention_substring (query : Str) :
    ((containsSub ("i".toList) (lowerStr query) = true ∨
      containsSub ("my".toList) (lowerStr query) = true ∨
      containsSub ("me".toList) (lowerStr query) = true) →
     IntentParser.extract_employee_mention query = IntentParser.Mention.self) ∧
    (IntentParser.extract_employee_mention query = IntentParser.Mention.other →
     containsSub ("i".toList) (lowerStr query) = false ∧
     containsSub ("my".toList) (lowerStr query) = false ∧
     containsSub ("me".toList) (lowerStr query) = false ∧
     containsSub ("myself".toList) (lowerStr query) = false ∧
     (containsSub ("her".toList) (lowerStr query) = true ∨
      containsSub ("employee".toList) (lowerStr query) = true)) := by
  constructor
  · intro h
    have hany : (["my".toList, "i".toList, "me".toList, "myself".toList].any
        fun w => containsSub w (lowerStr query)) = true := by
      rcases h with h | h | h
      · exact List.any_eq_true.mpr ⟨"i".toList, by simp, h⟩
      · exact List.any_eq_true.mpr ⟨"my".toList, by simp, h⟩
      · exact List.any_eq_true.mpr ⟨"me".toList, by simp, h⟩
    unfold IntentParser.extract_employee_mention
    rw [if_pos hany]
  · intro h
    unfold IntentParser.extract_employee_mention at h
    by_cases hself : (["my".toList, "i".toList, "me".toList, "myself".toList].any
        fun w => containsSub w (lowerStr query)) = true
    · rw [if_pos hself] at h
      exact absurd h (by decide)
    · rw [if_neg hself] at h
      have hall : ∀ w ∈ ["my".toList, "i".toList, "me".toList, "myself".toList],
          containsSub w (lowerStr query) = false := by
        intro w hw
        by_contra hc
        rw [Bool.not_eq_false] at hc
        exact hself (List.any_eq_true.mpr ⟨w, hw, hc⟩)
      have hi := hall ("i".toList) (by simp)
      have hmy := hall ("my".toList) (by simp)
      have hme := hall ("me".toList) (by simp)
      have hmyself := hall ("myself".toList) (by simp)
      by_cases hoth : (["his".toList, "her".toList, "their".toList, "employee".toList].any
          fun w => containsSub w (lowerStr query)) = true
      · obtain ⟨w, hw, hcw⟩ := List.any_eq_true.mp hoth
        refine ⟨hi, hmy, hme, hmyself, ?_⟩
        simp only [List.mem_cons, List.not_mem_nil, or_false] at hw
        rcases hw with rfl | rfl | rfl | rfl
        · have hin : containsSub ("i".toList) ("his".toList) = true := by decide
          have hiq := containsSub_trans hin hcw
          rw [hiq] at hi
          exact Bool.noConfusion hi
        · exact Or.inl hcw
        · have hin : containsSub ("i".toList) ("their".toList) = true := by decide
          have hiq := containsSub_trans hin hcw
          rw [hiq] at hi
          exact Bool.noConfusion hi
        · exact Or.inr hcw
      · rw [if_neg hoth] at h
        exact absurd h (by decide)

/-- Witness for C10: "my status" yields self, and "her progress" yields
other with the required substring facts. -/
theorem c10_employee_mention_substring_witness :
    IntentParser.extract_employee_mention ("my status".toList) =
      IntentParser.Mention.self ∧
    (containsSub ("her".toList) (lowerStr ("her progress".toList)) = true ∨
     containsSub ("employee".toList) (lowerStr ("her progress".toList)) = true) :=
  ⟨(c10_employee_mention_substring ("my status".toList)).1 (Or.inr (Or.inl (by decide))),
   ((c10_employee_mention_substring ("her progress".toList)).2 (by decide)).2.2.2.2⟩

